import Mathlib

/-!
Verification of the InvokeAI control-layers canvas core (konva/events.ts,
CanvasLayer.ts and the canvasV2 slice) against its natural-language
specification.

Conventions of the embedding:
* JavaScript numbers are modelled as rationals (ℚ).  None of the verified
  claims depend on float rounding.
* `Math.hypot(a, b) < m` is modelled by the equivalent comparison
  `0 ≤ m ∧ a*a + b*b < m*m` (for `m ≥ 0` the two are equivalent over the
  reals, and `hypot < m` is false for `m < 0`, matching the model).
* `Math.round` (round half toward positive infinity) is `⌊x + 1/2⌋`.
* Functions that source from files absent from the harvest
  (`util.ts`, `constants.ts`, the layer reducers) are modelled from the
  spec; each such definition has a doc comment starting with
  `Modelled from the spec:`.
* Fresh identifier generation (`nanoid`) is modelled by threading an
  explicit counter; the handlers receive the counter value as an argument.
-/

/-- A 2D coordinate, as in `Coordinate` of the store types. -/
structure Coordinate where
  x : ℚ
  y : ℚ
deriving DecidableEq, Repr

/-- An axis-aligned rectangle, as in `Rect` of the store types. -/
structure Rect where
  x : ℚ
  y : ℚ
  width : ℚ
  height : ℚ
deriving DecidableEq, Repr

/-- An RGBA color, as in `RgbaColor` of the store types. -/
structure RgbaColor where
  r : ℕ
  g : ℕ
  b : ℕ
  a : ℕ
deriving DecidableEq, Repr

/-- The closed tool enumeration (`Tool` of the store types). -/
inductive Tool where
  | move
  | view
  | brush
  | eraser
  | rect
  | bbox
  | eyeDropper
deriving DecidableEq, Repr

/-- The tool slice of `CanvasV2State` (`state.tool`): selected tool, the
buffered previous tool, scroll inversion, fill color and the brush/eraser
widths (`tool.brush.width` / `tool.eraser.width` flattened into one record). -/
structure ToolState where
  selected : Tool
  selectedBuffer : Option Tool
  invertScroll : Bool
  fill : RgbaColor
  brushWidth : ℚ
  eraserWidth : ℚ
deriving DecidableEq, Repr

/-- lodash `clamp(number, lower, upper)`: the number is first capped at
`upper`, then raised to `lower`. -/
def clamp (x lower upper : ℚ) : ℚ :=
  max (min x upper) lower

/-- Embedding of `Math.sign`, returning -1, 0 or 1 as a number. -/
def mathSign (x : ℚ) : ℚ :=
  if 0 < x then 1 else if x < 0 then -1 else 0

/-- Embedding of `Math.round`: rounds half toward positive infinity, `⌊x + 1/2⌋`. -/
def jsRound (x : ℚ) : ℤ :=
  ⌊x + 1/2⌋

/-- Source function `calculateNewBrushSize` from events.ts.  The current width is a natural
number because the host reducers (`brushWidthChanged` / `eraserWidthChanged`
in the canvasV2 slice) store `Math.round` of every width update, so the
width read back from state is always an integer.  `0.7363` and `1.0394` are
the literal curve constants of the source. -/
def calculateNewBrushSize (brushSize : ℕ) (delta : ℚ) : ℚ :=
  let targetDelta := mathSign delta * (7363/10000) * (10394/10000 : ℚ) ^ brushSize
  let finalDelta := clamp targetDelta (-20) 20
  clamp ((brushSize : ℚ) + finalDelta) 1 500

theorem clamp_le_upper (x lower upper : ℚ) (h : lower ≤ upper) :
    clamp x lower upper ≤ upper := by
  unfold clamp
  exact max_le (min_le_right x upper) h

theorem lower_le_clamp (x lower upper : ℚ) : lower ≤ clamp x lower upper := by
  unfold clamp
  exact le_max_right _ _

theorem clamp_mono (x y lower upper : ℚ) (h : x ≤ y) :
    clamp x lower upper ≤ clamp y lower upper := by
  unfold clamp
  exact max_le_max (min_le_min h le_rfl) le_rfl

theorem clamp_eq_self (x lower upper : ℚ) (h1 : lower ≤ x) (h2 : x ≤ upper) :
    clamp x lower upper = x := by
  unfold clamp
  rw [min_eq_left h2, max_eq_left h1]

/-- A drawable object as it appears in the handlers: a JavaScript record
with a string discriminator field `type` carrying the payload fields of the
`BrushLine` / `EraserLine` / `RectShape` / image variants.  A flat record is
used because the source discriminates on the literal string tag (and the two
harvested modules disagree on the rectangle tag: events.ts constructs and
matches `'rect'` while CanvasLayer.finalizeDrawingBuffer matches
`'rect_shape'`), so the tags must be kept literal. -/
structure CanvasObject where
  id : String
  type : String
  points : List ℚ := []
  strokeWidth : ℚ := 0
  rect : Rect := ⟨0, 0, 0, 0⟩
  color : RgbaColor := ⟨0, 0, 0, 0⟩
  clip : Option Rect := none
deriving DecidableEq, Repr

/-- The slice of a drawable entity and its adapter used by the pointer
handlers: the entity id, its position offset, the adapter's in-progress
drawing buffer (`CanvasLayer._drawingBuffer`), and the entity's persisted
object list from the document snapshot. -/
structure Layer where
  id : String
  position : Coordinate
  buffer : Option CanvasObject
  objects : List CanvasObject
deriving DecidableEq, Repr

/-- Modelled from the spec: identifier generation ("identifier generation"
among the geometry/tool utilities; `getPrefixedId` of the absent util.ts).
The nanoid suffix is modelled by an explicit counter. -/
def getPrefixedId (pfx : String) (fresh : ℕ) : String :=
  pfx ++ (":" ++ toString fresh)

/-- Modelled from the spec: identifier generation for objects
(`getObjectId` of the absent util.ts); buffer objects get a distinct
namespace from committed objects. -/
def getObjectId (ty : String) (isBuffer : Bool) (fresh : ℕ) : String :=
  getPrefixedId (if isBuffer then ty ++ "_buffer" else ty) fresh

/-- Modelled from the spec: "the pointer position normalized into the
entity's local coordinate space" (`offsetCoord` of the absent util.ts) —
subtracts the entity's position offset from the coordinate. -/
def offsetCoord (coord offset : Coordinate) : Coordinate :=
  ⟨coord.x - offset.x, coord.y - offset.y⟩

/-- Modelled from the spec: "snapped to the tool's stride" / "coordinate
offsetting/alignment to a brush/eraser stride" (`alignCoordForTool` of the
absent util.ts) — each coordinate is snapped so the stroke edge lies on the
pixel grid: round the coordinate shifted by half the tool width, then shift
back (integers for even widths, half-integers for odd widths). -/
def alignCoordForTool (coord : Coordinate) (toolWidth : ℚ) : Coordinate :=
  ⟨(jsRound (coord.x - toolWidth / 2) : ℚ) + toolWidth / 2,
   (jsRound (coord.y - toolWidth / 2) : ℚ) + toolWidth / 2⟩

/-- Modelled from the spec: "a minimum spacing (proportional to stroke
width)" (`BRUSH_SPACING_TARGET_SCALE` of the absent constants.ts); the value
is one tenth of the stroke width. -/
def BRUSH_SPACING_TARGET_SCALE : ℚ := 1/10

/-- Embedding of the comparison `Math.hypot(a, b) < m`, squared: for `m ≥ 0` the comparison
`hypot < m` is equivalent to `a² + b² < m²`, and for `m < 0` it is false. -/
def hypotLt (a b m : ℚ) : Bool :=
  decide (0 ≤ m ∧ a * a + b * b < m * m)

/-- The `minSpacingPx` binding of `getNextPoint`: the brush width times the
spacing scale when the brush tool is selected, else the eraser width times
the spacing scale. -/
def minSpacingOf (toolState : ToolState) : ℚ :=
  if toolState.selected = Tool.brush then
    toolState.brushWidth * BRUSH_SPACING_TARGET_SCALE
  else
    toolState.eraserWidth * BRUSH_SPACING_TARGET_SCALE

/-- Source function `getNextPoint` from events.ts: the stride-spacing filter.  Returns the
candidate point unchanged, or `none` when a last added point exists and the
candidate is closer to it than the minimum spacing. -/
def getNextPoint (currentPos : Coordinate) (toolState : ToolState)
    (lastAddedPoint : Option Coordinate) : Option Coordinate :=
  match lastAddedPoint with
  | some lastPoint =>
      if hypotLt (lastPoint.x - currentPos.x) (lastPoint.y - currentPos.y)
          (minSpacingOf toolState) then
        none
      else
        some currentPos
  | none => some currentPos

/-- Source function `getLastPointOfLine` from events.ts: the last stored point of a flat
x/y coordinate list, or `none` when fewer than two numbers are stored. -/
def getLastPointOfLine (points : List ℚ) : Option Coordinate :=
  if points.length < 2 then
    none
  else
    match points.get? (points.length - 2), points.get? (points.length - 1) with
    | some x, some y => some ⟨x, y⟩
    | _, _ => none

/-- Source method `CanvasLayer.finalizeDrawingBuffer`: clears the buffer, then — matching
on the buffer's literal type tag — assigns a fresh `getPrefixedId
'brush_line'` identifier (all three branches use the `'brush_line'` tag) and
dispatches the corresponding line/rect-added command.  The dispatched
commands (`onBrushLineAdded`, `onEraserLineAdded`, `onRectShapeAdded`, whose
reducers are absent from the harvest) are modelled from the spec as
"folded into the entity's persisted object list": they append the object. -/
def finalizeDrawingBuffer (layer : Layer) (fresh : ℕ) : Layer :=
  match layer.buffer with
  | none => layer
  | some drawingBuffer =>
      let cleared : Layer := { layer with buffer := none }
      if drawingBuffer.type = "brush_line" then
        { cleared with objects := cleared.objects ++
            [{ drawingBuffer with id := getPrefixedId "brush_line" fresh }] }
      else if drawingBuffer.type = "eraser_line" then
        { cleared with objects := cleared.objects ++
            [{ drawingBuffer with id := getPrefixedId "brush_line" fresh }] }
      else if drawingBuffer.type = "rect_shape" then
        { cleared with objects := cleared.objects ++
            [{ drawingBuffer with id := getPrefixedId "brush_line" fresh }] }
      else
        cleared

/-- Embedding of `renderer.clearBuffer()` as reached from the handlers, i.e.
`setDrawingBuffer(null)`: drops the in-progress buffer. -/
def clearBuffer (layer : Layer) : Layer :=
  { layer with buffer := none }

/-- The guarded body of the `mouseup` handler (cursor position known, a
drawable entity selected, space not held): per active tool, the buffer is
committed via `finalizeDrawingBuffer` when its type tag matches the tool's
buffer tag (`'brush_line'`, `'eraser_line'`, `'rect'`), and cleared
otherwise.  Tools other than brush/eraser/rect leave the buffer untouched. -/
def onMouseUp (toolState : ToolState) (layer : Layer) (fresh : ℕ) : Layer :=
  match toolState.selected with
  | Tool.brush =>
      if layer.buffer.map CanvasObject.type = some "brush_line" then
        finalizeDrawingBuffer layer fresh
      else
        clearBuffer layer
  | Tool.eraser =>
      if layer.buffer.map CanvasObject.type = some "eraser_line" then
        finalizeDrawingBuffer layer fresh
      else
        clearBuffer layer
  | Tool.rect =>
      if layer.buffer.map CanvasObject.type = some "rect" then
        finalizeDrawingBuffer layer fresh
      else
        clearBuffer layer
  | _ => layer

/-- The rect branch of the guarded `mousedown` handler body: commits any
existing buffer, then opens a zero-size rectangle buffer of type tag
`'rect'` anchored at the rounded normalized press point, filled with the
current fill color. -/
def onMouseDownRect (toolState : ToolState) (layer : Layer)
    (pos : Coordinate) (freshCommit freshId : ℕ) : Layer :=
  let layer' :=
    if layer.buffer.isSome then finalizeDrawingBuffer layer freshCommit
    else layer
  let normalizedPoint := offsetCoord pos layer'.position
  let newBuffer : CanvasObject :=
    { id := getObjectId "rect" true freshId,
      type := "rect",
      rect := { x := (jsRound normalizedPoint.x : ℚ),
                y := (jsRound normalizedPoint.y : ℚ),
                width := 0,
                height := 0 },
      color := toolState.fill }
  { layer' with buffer := some newBuffer }

/-- The brush branch of the guarded `mousemove` handler body.  With an
existing brush-line buffer it appends the aligned point when the spacing
filter passes and the aligned point is not a duplicate of the buffer's last
stored point; with a buffer of another type it clears the buffer; with no
buffer it starts a new one-point line at the aligned cursor position
(`clip` stands for the result of `getClip`, which depends only on external
stage/settings state). -/
def onMouseMoveBrush (toolState : ToolState) (layer : Layer)
    (pos : Coordinate) (fresh : ℕ) (clip : Rect) : Layer :=
  match layer.buffer with
  | some drawingBuffer =>
      if drawingBuffer.type = "brush_line" then
        match getLastPointOfLine drawingBuffer.points with
        | some lastPoint =>
            match getNextPoint pos toolState (some lastPoint) with
            | some nextPoint =>
                let normalizedPoint := offsetCoord nextPoint layer.position
                let alignedPoint :=
                  alignCoordForTool normalizedPoint toolState.brushWidth
                if lastPoint.x ≠ alignedPoint.x ∨ lastPoint.y ≠ alignedPoint.y then
                  { layer with buffer := some { drawingBuffer with
                      points := drawingBuffer.points ++
                        [alignedPoint.x, alignedPoint.y] } }
                else
                  layer
            | none => layer
        | none => layer
      else
        clearBuffer layer
  | none =>
      let normalizedPoint := offsetCoord pos layer.position
      let alignedPoint := alignCoordForTool normalizedPoint toolState.brushWidth
      let newBuffer : CanvasObject :=
        { id := getObjectId "brush_line" true fresh,
          type := "brush_line",
          points := [alignedPoint.x, alignedPoint.y],
          strokeWidth := toolState.brushWidth,
          color := toolState.fill,
          clip := some clip }
      { layer with buffer := some newBuffer }

/-- The eraser branch of the guarded `mousemove` handler body; identical in
structure to the brush branch but for the `'eraser_line'` tag, the eraser
width and the absence of a fill color. -/
def onMouseMoveEraser (toolState : ToolState) (layer : Layer)
    (pos : Coordinate) (fresh : ℕ) (clip : Rect) : Layer :=
  match layer.buffer with
  | some drawingBuffer =>
      if drawingBuffer.type = "eraser_line" then
        match getLastPointOfLine drawingBuffer.points with
        | some lastPoint =>
            match getNextPoint pos toolState (some lastPoint) with
            | some nextPoint =>
                let normalizedPoint := offsetCoord nextPoint layer.position
                let alignedPoint :=
                  alignCoordForTool normalizedPoint toolState.eraserWidth
                if lastPoint.x ≠ alignedPoint.x ∨ lastPoint.y ≠ alignedPoint.y then
                  { layer with buffer := some { drawingBuffer with
                      points := drawingBuffer.points ++
                        [alignedPoint.x, alignedPoint.y] } }
                else
                  layer
            | none => layer
        | none => layer
      else
        clearBuffer layer
  | none =>
      let normalizedPoint := offsetCoord pos layer.position
      let alignedPoint := alignCoordForTool normalizedPoint toolState.eraserWidth
      let newBuffer : CanvasObject :=
        { id := getObjectId "eraser_line" true fresh,
          type := "eraser_line",
          points := [alignedPoint.x, alignedPoint.y],
          strokeWidth := toolState.eraserWidth,
          clip := some clip }
      { layer with buffer := some newBuffer }

/-- The rect branch of the guarded `mousemove` handler body: with an
existing `'rect'` buffer, sets its signed width/height to the rounded
difference between the normalized cursor and the rect's anchor; with a
buffer of another type, clears it; with no buffer, does nothing. -/
def onMouseMoveRect (layer : Layer) (pos : Coordinate) : Layer :=
  match layer.buffer with
  | some drawingBuffer =>
      if drawingBuffer.type = "rect" then
        let normalizedPoint := offsetCoord pos layer.position
        { layer with buffer := some { drawingBuffer with
            rect := { drawingBuffer.rect with
              width := (jsRound (normalizedPoint.x - drawingBuffer.rect.x) : ℚ),
              height := (jsRound (normalizedPoint.y - drawingBuffer.rect.y) : ℚ) } } }
      else
        clearBuffer layer
  | none => layer

/-- The guarded `mousemove` handler body (cursor known, drawable entity
selected, primary button held, space not held): the three tool branches of
the source run under mutually exclusive `toolState.selected` checks. -/
def onMouseMove (toolState : ToolState) (layer : Layer)
    (pos : Coordinate) (fresh : ℕ) (clip : Rect) : Layer :=
  match toolState.selected with
  | Tool.brush => onMouseMoveBrush toolState layer pos fresh clip
  | Tool.eraser => onMouseMoveEraser toolState layer pos fresh clip
  | Tool.rect => onMouseMoveRect layer pos
  | _ => layer

/-- The guarded `mouseleave` handler body (cursor known, drawable entity
selected, primary button held, space not held): when the active tool matches
the buffer's type tag, one final point/extent update is applied from the
leave position — unconditionally, with no spacing or duplicate filter — and
the buffer is committed. -/
def onMouseLeave (toolState : ToolState) (layer : Layer)
    (pos : Coordinate) (fresh : ℕ) : Layer :=
  match layer.buffer with
  | some drawingBuffer =>
      let normalizedPoint := offsetCoord pos layer.position
      if toolState.selected = Tool.brush ∧ drawingBuffer.type = "brush_line" then
        let alignedPoint := alignCoordForTool normalizedPoint toolState.brushWidth
        finalizeDrawingBuffer
          { layer with buffer := some { drawingBuffer with
              points := drawingBuffer.points ++ [alignedPoint.x, alignedPoint.y] } }
          fresh
      else if toolState.selected = Tool.eraser ∧ drawingBuffer.type = "eraser_line" then
        let alignedPoint := alignCoordForTool normalizedPoint toolState.eraserWidth
        finalizeDrawingBuffer
          { layer with buffer := some { drawingBuffer with
              points := drawingBuffer.points ++ [alignedPoint.x, alignedPoint.y] } }
          fresh
      else if toolState.selected = Tool.rect ∧ drawingBuffer.type = "rect" then
        finalizeDrawingBuffer
          { layer with buffer := some { drawingBuffer with
              rect := { drawingBuffer.rect with
                width := (jsRound (normalizedPoint.x - drawingBuffer.rect.x) : ℚ),
                height := (jsRound (normalizedPoint.y - drawingBuffer.rect.y) : ℚ) } } }
          fresh
      else
        layer
  | none => layer

/-- Groups a flat x/y coordinate list into points, as the stored `points`
arrays of brush and eraser strokes are interpreted. -/
def chunkPairs : List ℚ → List Coordinate
  | x :: y :: rest => ⟨x, y⟩ :: chunkPairs rest
  | _ => []

/-- Decides whether every two consecutive points of a list are at (squared)
distance at least `m²` — the spacing property the spec asserts for all
consecutive stored points of a stroke. -/
def consecutiveSpacedB (m : ℚ) : List Coordinate → Bool
  | p :: q :: rest =>
      decide (m * m ≤ (p.x - q.x) * (p.x - q.x) + (p.y - q.y) * (p.y - q.y))
        && consecutiveSpacedB m (q :: rest)
  | _ => true

/-- C4: for every integer width in [1, 500] and every wheel delta, the
brush/eraser size adjustment keeps the result in [1, 500], changes the width
by at most 20 in magnitude, and is sign-monotone: a positive delta never
decreases the width and a negative delta never increases it.  (Determinism is
inherent: the embedding is a pure function of its two arguments.) -/
theorem brushSize_adjustment_bounded (w : ℕ) (d : ℚ)
    (h1 : 1 ≤ w) (h2 : w ≤ 500) :
    1 ≤ calculateNewBrushSize w d ∧
    calculateNewBrushSize w d ≤ 500 ∧
    |calculateNewBrushSize w d - (w : ℚ)| ≤ 20 ∧
    (0 < d → (w : ℚ) ≤ calculateNewBrushSize w d) ∧
    (d < 0 → calculateNewBrushSize w d ≤ (w : ℚ)) := by
  have hw1 : (1 : ℚ) ≤ (w : ℚ) := by exact_mod_cast h1
  have hw2 : (w : ℚ) ≤ 500 := by exact_mod_cast h2
  have hp : (0 : ℚ) < (10394/10000 : ℚ) ^ w := pow_pos (by norm_num) w
  set t := mathSign d * (7363/10000) * (10394/10000 : ℚ) ^ w with ht
  set f := clamp t (-20) 20 with hf
  have hf1 : (-20 : ℚ) ≤ f := lower_le_clamp t (-20) 20
  have hf2 : f ≤ 20 := clamp_le_upper t (-20) 20 (by norm_num)
  have hnew : calculateNewBrushSize w d = clamp ((w : ℚ) + f) 1 500 := rfl
  refine ⟨?_, ?_, ?_, ?_, ?_⟩
  · rw [hnew]; exact lower_le_clamp _ 1 500
  · rw [hnew]; exact clamp_le_upper _ 1 500 (by norm_num)
  · rw [hnew]
    rw [abs_le]
    constructor
    · have hlow : (w : ℚ) - 20 ≤ clamp ((w : ℚ) + f) 1 500 := by
        unfold clamp
        have hm : (w : ℚ) - 20 ≤ min ((w : ℚ) + f) 500 :=
          le_min (by linarith) (by linarith)
        exact le_trans hm (le_max_left _ _)
      linarith
    · have hhigh : clamp ((w : ℚ) + f) 1 500 ≤ (w : ℚ) + 20 := by
        unfold clamp
        exact max_le (le_trans (min_le_left _ _) (by linarith)) (by linarith)
      linarith
  · intro hd
    have hs : mathSign d = 1 := by unfold mathSign; rw [if_pos hd]
    have htpos : 0 < t := by
      rw [ht, hs]
      positivity
    have hfpos : 0 ≤ f := by
      rw [hf]
      unfold clamp
      have : (0 : ℚ) ≤ min t 20 := le_min (le_of_lt htpos) (by norm_num)
      exact le_trans this (le_max_left _ _)
    rw [hnew]
    calc (w : ℚ) = clamp (w : ℚ) 1 500 := (clamp_eq_self _ _ _ hw1 hw2).symm
      _ ≤ clamp ((w : ℚ) + f) 1 500 := clamp_mono _ _ _ _ (by linarith)
  · intro hd
    have hs : mathSign d = -1 := by
      unfold mathSign
      rw [if_neg (by linarith), if_pos hd]
    have htneg : t < 0 := by
      rw [ht, hs]
      nlinarith
    have hfneg : f ≤ 0 := by
      rw [hf]
      unfold clamp
      exact max_le (le_trans (min_le_left _ _) (le_of_lt htneg)) (by norm_num)
    rw [hnew]
    calc clamp ((w : ℚ) + f) 1 500 ≤ clamp (w : ℚ) 1 500 :=
          clamp_mono _ _ _ _ (by linarith)
      _ = (w : ℚ) := clamp_eq_self _ _ _ hw1 hw2

/-- Witness for C4 at width 50 and deltas 5 and -3. -/
theorem brushSize_adjustment_bounded_witness :
    (1 ≤ calculateNewBrushSize 50 5 ∧
     calculateNewBrushSize 50 5 ≤ 500 ∧
     |calculateNewBrushSize 50 5 - (50 : ℚ)| ≤ 20 ∧
     (0 < (5 : ℚ) → (50 : ℚ) ≤ calculateNewBrushSize 50 5) ∧
     ((5 : ℚ) < 0 → calculateNewBrushSize 50 5 ≤ (50 : ℚ))) ∧
    (((-3 : ℚ) < 0) ∧ calculateNewBrushSize 50 (-3) ≤ (50 : ℚ)) := by
  refine ⟨brushSize_adjustment_bounded 50 5 (by norm_num) (by norm_num), ?_, ?_⟩
  · norm_num
  · exact (brushSize_adjustment_bounded 50 (-3) (by norm_num) (by norm_num)).2.2.2.2
      (by norm_num)

/-- Fixture: a tool state with the rectangle tool selected. -/
def rectToolFixture : ToolState :=
  { selected := Tool.rect, selectedBuffer := none, invertScroll := false,
    fill := ⟨0, 0, 0, 255⟩, brushWidth := 50, eraserWidth := 50 }

/-- Fixture: a tool state with the brush tool selected. -/
def brushToolFixture : ToolState :=
  { rectToolFixture with selected := Tool.brush }

/-- Fixture: a drawable entity holding a non-degenerate 5×5 in-progress
rectangle buffer, as built by the `mousedown` rect branch (type tag
`'rect'`). -/
def rectBufferLayerFixture : Layer :=
  { id := "layer_1", position := ⟨0, 0⟩,
    buffer := some { id := getObjectId "rect" true 7, type := "rect",
                     rect := ⟨10, 10, 5, 5⟩, color := ⟨0, 0, 0, 255⟩ },
    objects := [] }

/-- Fixture: a drawable entity holding an in-progress brush-line buffer. -/
def brushBufferLayerFixture : Layer :=
  { id := "layer_1", position := ⟨0, 0⟩,
    buffer := some { id := getObjectId "brush_line" true 7, type := "brush_line",
                     points := [0, 0, 5, 5], strokeWidth := 50,
                     color := ⟨0, 0, 0, 255⟩ },
    objects := [] }

/-- C1: evaluation of the release path at the failing input.  With the
rectangle tool active and a matching in-progress rectangle buffer, the
`mouseup` handler routes the buffer to `finalizeDrawingBuffer` (the buffer's
`'rect'` tag matches the tool), but the finalize step only recognizes the
`'rect_shape'` tag, so the buffer is dropped without any object being
appended and without a fresh identifier being assigned — contradicting the
claim that a matching buffer commit appends exactly one object.  The third
conjunct shows the contrast: the same release path with a brush-line buffer
does append exactly one object. -/
theorem rectCommit_dropsBufferWithoutAppending :
    (onMouseUp rectToolFixture rectBufferLayerFixture 8).objects = [] ∧
    (onMouseUp rectToolFixture rectBufferLayerFixture 8).buffer = none ∧
    (onMouseUp brushToolFixture brushBufferLayerFixture 8).objects.length = 1 := by
  decide

/-- Fixture: a drawable entity with one committed brush line and no
in-progress buffer. -/
def nonEmptyLayerFixture : Layer :=
  { id := "layer_1", position := ⟨0, 0⟩, buffer := none,
    objects := [{ id := "brush_line:1", type := "brush_line",
                  points := [0, 0, 3, 3], strokeWidth := 50,
                  color := ⟨0, 0, 0, 255⟩ }] }

/-- C3: a rectangle press at (10,10) followed by a release at the same
point, with no intervening movement.  The press opens a zero-size rectangle
buffer anchored at (10,10); the release leaves the entity's persisted object
list unchanged and clears the buffer — no object is appended. -/
theorem degenerateRectRelease_appendsNoObject :
    (onMouseDownRect rectToolFixture nonEmptyLayerFixture ⟨10, 10⟩ 100 101).buffer =
      some { id := getObjectId "rect" true 101, type := "rect",
             rect := ⟨10, 10, 0, 0⟩, color := ⟨0, 0, 0, 255⟩ } ∧
    (onMouseUp rectToolFixture
        (onMouseDownRect rectToolFixture nonEmptyLayerFixture ⟨10, 10⟩ 100 101)
        102).objects = nonEmptyLayerFixture.objects ∧
    (onMouseUp rectToolFixture
        (onMouseDownRect rectToolFixture nonEmptyLayerFixture ⟨10, 10⟩ 100 101)
        102).buffer = none := by
  have hdown : onMouseDownRect rectToolFixture nonEmptyLayerFixture ⟨10, 10⟩ 100 101 =
      { id := "layer_1", position := ⟨0, 0⟩,
        buffer := some { id := getObjectId "rect" true 101, type := "rect",
                         rect := ⟨10, 10, 0, 0⟩, color := ⟨0, 0, 0, 255⟩ },
        objects := nonEmptyLayerFixture.objects } := by
    simp [onMouseDownRect, nonEmptyLayerFixture, rectToolFixture, offsetCoord, jsRound]
    norm_num
  rw [hdown]
  decide

/-- C10: whatever the variant of the committed buffer — brush line, eraser
line, or rectangle (the `'rect_shape'` tag recognized by
`finalizeDrawingBuffer`) — the committed object is appended with an
identifier generated by `getPrefixedId` with the `'brush_line'` tag, so the
identifier begins with `brush_line` in every case and does not indicate the
variant. -/
theorem finalize_assignsBrushLinePrefixedId (layer : Layer) (buf : CanvasObject)
    (fresh : ℕ) (hb : layer.buffer = some buf)
    (ht : buf.type = "brush_line" ∨ buf.type = "eraser_line" ∨
          buf.type = "rect_shape") :
    (finalizeDrawingBuffer layer fresh).objects =
      layer.objects ++ [{ buf with id := getPrefixedId "brush_line" fresh }] ∧
    getPrefixedId "brush_line" fresh = "brush_line" ++ (":" ++ toString fresh) := by
  constructor
  · unfold finalizeDrawingBuffer
    rw [hb]
    rcases ht with h | h | h <;> simp [h]
  · rfl

/-- Fixture: a drawable entity holding an in-progress eraser-line buffer. -/
def eraserBufferLayerFixture : Layer :=
  { id := "layer_1", position := ⟨0, 0⟩,
    buffer := some { id := getObjectId "eraser_line" true 7, type := "eraser_line",
                     points := [0, 0, 5, 5], strokeWidth := 50 },
    objects := [] }

/-- Witness for C10: committing the eraser-line buffer of
`eraserBufferLayerFixture` appends an object whose fresh identifier carries
the `brush_line` tag. -/
theorem finalize_assignsBrushLinePrefixedId_witness :
    (finalizeDrawingBuffer eraserBufferLayerFixture 9).objects =
      eraserBufferLayerFixture.objects ++
        [{ id := getPrefixedId "brush_line" 9, type := "eraser_line",
           points := [0, 0, 5, 5], strokeWidth := 50 }] ∧
    getPrefixedId "brush_line" 9 = "brush_line" ++ (":" ++ toString 9) :=
  finalize_assignsBrushLinePrefixedId eraserBufferLayerFixture
    { id := getObjectId "eraser_line" true 7, type := "eraser_line",
      points := [0, 0, 5, 5], strokeWidth := 50 }
    9 rfl (Or.inr (Or.inl rfl))

theorem hypotLt_false_sq_le (a b m : ℚ) (hm : 0 ≤ m) (h : hypotLt a b m = false) :
    m * m ≤ a * a + b * b := by
  unfold hypotLt at h
  rw [decide_eq_false_iff_not] at h
  push_neg at h
  exact h hm

theorem getNextPoint_cases (currentPos : Coordinate) (ts : ToolState)
    (lastPoint : Coordinate) :
    getNextPoint currentPos ts (some lastPoint) = none ∨
    (getNextPoint currentPos ts (some lastPoint) = some currentPos ∧
     hypotLt (lastPoint.x - currentPos.x) (lastPoint.y - currentPos.y)
       (minSpacingOf ts) = false) := by
  have hred : getNextPoint currentPos ts (some lastPoint) =
      if hypotLt (lastPoint.x - currentPos.x) (lastPoint.y - currentPos.y)
          (minSpacingOf ts) = true then none else some currentPos := rfl
  rw [hred]
  cases hB : hypotLt (lastPoint.x - currentPos.x) (lastPoint.y - currentPos.y)
      (minSpacingOf ts) with
  | true =>
      left
      simp
  | false =>
      right
      simp

theorem onMouseMoveBrush_append_eq (ts : ToolState) (layer : Layer)
    (pos : Coordinate) (fresh : ℕ) (clip : Rect)
    (buf : CanvasObject) (lastPoint : Coordinate)
    (hb : layer.buffer = some buf) (ht : buf.type = "brush_line")
    (hl : getLastPointOfLine buf.points = some lastPoint)
    (hch : onMouseMoveBrush ts layer pos fresh clip ≠ layer) :
    hypotLt (lastPoint.x - pos.x) (lastPoint.y - pos.y) (minSpacingOf ts) = false ∧
    alignCoordForTool (offsetCoord pos layer.position) ts.brushWidth ≠ lastPoint ∧
    (onMouseMoveBrush ts layer pos fresh clip).buffer =
      some { buf with points := buf.points ++
        [(alignCoordForTool (offsetCoord pos layer.position) ts.brushWidth).x,
         (alignCoordForTool (offsetCoord pos layer.position) ts.brushWidth).y] } := by
  unfold onMouseMoveBrush at hch ⊢
  rw [hb] at hch ⊢
  simp only [ht, if_pos, hl] at hch ⊢
  rcases getNextPoint_cases pos ts lastPoint with hgn | ⟨hgn, hflt⟩
  · rw [hgn] at hch
    exact absurd rfl hch
  · simp only [hgn] at hch ⊢
    by_cases hdup : lastPoint.x ≠ (alignCoordForTool (offsetCoord pos layer.position)
        ts.brushWidth).x ∨ lastPoint.y ≠ (alignCoordForTool
        (offsetCoord pos layer.position) ts.brushWidth).y
    · refine ⟨hflt, ?_, ?_⟩
      · intro hEq
        rcases hdup with hx | hy
        · exact hx (congrArg Coordinate.x hEq).symm
        · exact hy (congrArg Coordinate.y hEq).symm
      · rw [if_pos hdup]
    · rw [if_neg hdup] at hch
      exact absurd rfl hch

theorem onMouseMoveEraser_append_eq (ts : ToolState) (layer : Layer)
    (pos : Coordinate) (fresh : ℕ) (clip : Rect)
    (buf : CanvasObject) (lastPoint : Coordinate)
    (hb : layer.buffer = some buf) (ht : buf.type = "eraser_line")
    (hl : getLastPointOfLine buf.points = some lastPoint)
    (hch : onMouseMoveEraser ts layer pos fresh clip ≠ layer) :
    hypotLt (lastPoint.x - pos.x) (lastPoint.y - pos.y) (minSpacingOf ts) = false ∧
    alignCoordForTool (offsetCoord pos layer.position) ts.eraserWidth ≠ lastPoint ∧
    (onMouseMoveEraser ts layer pos fresh clip).buffer =
      some { buf with points := buf.points ++
        [(alignCoordForTool (offsetCoord pos layer.position) ts.eraserWidth).x,
         (alignCoordForTool (offsetCoord pos layer.position) ts.eraserWidth).y] } := by
  unfold onMouseMoveEraser at hch ⊢
  rw [hb] at hch ⊢
  simp only [ht, if_pos, hl] at hch ⊢
  rcases getNextPoint_cases pos ts lastPoint with hgn | ⟨hgn, hflt⟩
  · rw [hgn] at hch
    exact absurd rfl hch
  · simp only [hgn] at hch ⊢
    by_cases hdup : lastPoint.x ≠ (alignCoordForTool (offsetCoord pos layer.position)
        ts.eraserWidth).x ∨ lastPoint.y ≠ (alignCoordForTool
        (offsetCoord pos layer.position) ts.eraserWidth).y
    · refine ⟨hflt, ?_, ?_⟩
      · intro hEq
        rcases hdup with hx | hy
        · exact hx (congrArg Coordinate.x hEq).symm
        · exact hy (congrArg Coordinate.y hEq).symm
      · rw [if_pos hdup]
    · rw [if_neg hdup] at hch
      exact absurd rfl hch

/-- The stroke width of the active line tool: the brush width when the
brush tool is selected, else the eraser width. -/
def lineToolWidth (toolState : ToolState) : ℚ :=
  if toolState.selected = Tool.brush then toolState.brushWidth
  else toolState.eraserWidth

/-- C2 (amended): whenever the pointer-move handler appends a point to a
brush- or eraser-line buffer (for a tool whose width is nonnegative, as all
widths produced by the host reducers are), the raw cursor position is at
distance at least `width × spacingScale` from the buffer's last stored
point (stated squared), and the appended aligned point differs from the
last stored point; the appended point is the aligned normalized cursor
position.  The corresponding guarantee does not extend to the stored
points themselves (alignment and the entity position offset are applied
after the distance test) nor to the final unconditional append performed
by the `mouseleave` handler. -/
theorem mousemove_append_respects_spacing (ts : ToolState) (layer : Layer)
    (pos : Coordinate) (fresh : ℕ) (clip : Rect)
    (buf : CanvasObject) (lastPoint : Coordinate)
    (hb : layer.buffer = some buf)
    (hl : getLastPointOfLine buf.points = some lastPoint)
    (hcase : (ts.selected = Tool.brush ∧ buf.type = "brush_line" ∧
                0 ≤ ts.brushWidth) ∨
             (ts.selected = Tool.eraser ∧ buf.type = "eraser_line" ∧
                0 ≤ ts.eraserWidth))
    (hch : onMouseMove ts layer pos fresh clip ≠ layer) :
    minSpacingOf ts * minSpacingOf ts ≤
      (lastPoint.x - pos.x) * (lastPoint.x - pos.x) +
      (lastPoint.y - pos.y) * (lastPoint.y - pos.y) ∧
    alignCoordForTool (offsetCoord pos layer.position) (lineToolWidth ts) ≠
      lastPoint ∧
    (onMouseMove ts layer pos fresh clip).buffer =
      some { buf with points := buf.points ++
        [(alignCoordForTool (offsetCoord pos layer.position) (lineToolWidth ts)).x,
         (alignCoordForTool (offsetCoord pos layer.position) (lineToolWidth ts)).y] } := by
  rcases hcase with ⟨hsel, ht, hw⟩ | ⟨hsel, ht, hw⟩
  · have hmove : onMouseMove ts layer pos fresh clip =
        onMouseMoveBrush ts layer pos fresh clip := by
      unfold onMouseMove
      rw [hsel]
    rw [hmove] at hch
    have hwidth : lineToolWidth ts = ts.brushWidth := by
      unfold lineToolWidth
      rw [if_pos hsel]
    have hm : 0 ≤ minSpacingOf ts := by
      unfold minSpacingOf
      rw [if_pos hsel]
      exact mul_nonneg hw (by norm_num [BRUSH_SPACING_TARGET_SCALE])
    obtain ⟨hflt, hne, hbuf⟩ :=
      onMouseMoveBrush_append_eq ts layer pos fresh clip buf lastPoint hb ht hl hch
    rw [hmove, hwidth]
    exact ⟨hypotLt_false_sq_le _ _ _ hm hflt, hne, hbuf⟩
  · have hmove : onMouseMove ts layer pos fresh clip =
        onMouseMoveEraser ts layer pos fresh clip := by
      unfold onMouseMove
      rw [hsel]
    rw [hmove] at hch
    have hsel' : ts.selected ≠ Tool.brush := by
      rw [hsel]
      exact fun h => Tool.noConfusion h
    have hwidth : lineToolWidth ts = ts.eraserWidth := by
      unfold lineToolWidth
      rw [if_neg hsel']
    have hm : 0 ≤ minSpacingOf ts := by
      unfold minSpacingOf
      rw [if_neg hsel']
      exact mul_nonneg hw (by norm_num [BRUSH_SPACING_TARGET_SCALE])
    obtain ⟨hflt, hne, hbuf⟩ :=
      onMouseMoveEraser_append_eq ts layer pos fresh clip buf lastPoint hb ht hl hch
    rw [hmove, hwidth]
    exact ⟨hypotLt_false_sq_le _ _ _ hm hflt, hne, hbuf⟩

/-- Fixture: a tool state with the brush tool selected and width 10. -/
def brushTool10Fixture : ToolState :=
  { selected := Tool.brush, selectedBuffer := none, invertScroll := false,
    fill := ⟨0, 0, 0, 255⟩, brushWidth := 10, eraserWidth := 50 }

/-- Fixture: an in-progress brush-line buffer holding the single stored
point (0,0). -/
def brushMoveBufFixture : CanvasObject :=
  { id := getObjectId "brush_line" true 3, type := "brush_line",
    points := [0, 0], strokeWidth := 10, color := ⟨0, 0, 0, 255⟩ }

/-- Fixture: a drawable entity at the origin holding
`brushMoveBufFixture` as its in-progress buffer. -/
def brushMoveLayerFixture : Layer :=
  { id := "layer_1", position := ⟨0, 0⟩,
    buffer := some brushMoveBufFixture, objects := [] }

/-- Fixture: a clip rectangle (the result of `getClip`). -/
def clipFixture : Rect := ⟨0, 0, 512, 512⟩

/-- Witness for the amended C2: moving to (5,0) over the one-point buffer
at (0,0) with brush width 10 appends the aligned point (5,0); the raw
cursor is at squared distance 25 ≥ 1² from the last stored point and the
appended point is not a duplicate. -/
theorem mousemove_append_respects_spacing_witness :
    minSpacingOf brushTool10Fixture * minSpacingOf brushTool10Fixture ≤
      (((⟨0, 0⟩ : Coordinate)).x - ((⟨5, 0⟩ : Coordinate)).x) *
        (((⟨0, 0⟩ : Coordinate)).x - ((⟨5, 0⟩ : Coordinate)).x) +
      (((⟨0, 0⟩ : Coordinate)).y - ((⟨5, 0⟩ : Coordinate)).y) *
        (((⟨0, 0⟩ : Coordinate)).y - ((⟨5, 0⟩ : Coordinate)).y) ∧
    alignCoordForTool (offsetCoord ⟨5, 0⟩ brushMoveLayerFixture.position)
      (lineToolWidth brushTool10Fixture) ≠ ⟨0, 0⟩ ∧
    (onMouseMove brushTool10Fixture brushMoveLayerFixture ⟨5, 0⟩ 9
        clipFixture).buffer =
      some { brushMoveBufFixture with points := brushMoveBufFixture.points ++
        [(alignCoordForTool (offsetCoord ⟨5, 0⟩ brushMoveLayerFixture.position)
            (lineToolWidth brushTool10Fixture)).x,
         (alignCoordForTool (offsetCoord ⟨5, 0⟩ brushMoveLayerFixture.position)
            (lineToolWidth brushTool10Fixture)).y] } := by
  refine mousemove_append_respects_spacing brushTool10Fixture brushMoveLayerFixture
    ⟨5, 0⟩ 9 clipFixture brushMoveBufFixture ⟨0, 0⟩ rfl (by decide)
    (Or.inl ⟨rfl, rfl, by norm_num [brushTool10Fixture]⟩) ?_
  have hcomp : onMouseMove brushTool10Fixture brushMoveLayerFixture ⟨5, 0⟩ 9
      clipFixture =
      { id := "layer_1", position := ⟨0, 0⟩,
        buffer := some { id := getObjectId "brush_line" true 3,
                         type := "brush_line", points := [0, 0, 5, 0],
                         strokeWidth := 10, color := ⟨0, 0, 0, 255⟩ },
        objects := [] } := by
    norm_num [onMouseMove, onMouseMoveBrush, brushTool10Fixture,
      brushMoveLayerFixture, brushMoveBufFixture, getNextPoint,
      getLastPointOfLine, minSpacingOf, hypotLt, offsetCoord,
      alignCoordForTool, jsRound, BRUSH_SPACING_TARGET_SCALE]
  rw [hcomp]
  decide

/-- Fixture: a drawable entity at the origin holding a brush-line buffer
whose single stored point is (1,1). -/
def brushLeaveLayerFixture : Layer :=
  { id := "layer_1", position := ⟨0, 0⟩,
    buffer := some { id := getObjectId "brush_line" true 3,
                     type := "brush_line", points := [1, 1],
                     strokeWidth := 10, color := ⟨0, 0, 0, 255⟩ },
    objects := [] }

/-- Counterexample to C2 as stated: with brush width 10 (minimum spacing 1)
and a buffer whose last stored point is (1,1), the pointer leaving the
canvas at (1,1) appends the aligned point (1,1) — coincident with the last
stored point, with no spacing or duplicate filter — and commits the stroke
with stored points [1,1,1,1]; consecutive stored points of the committed
stroke are at distance 0 < width × spacingScale, so the claimed invariant
is false for this drag. -/
theorem mouseleave_appendsCoincidentPoint :
    ((onMouseLeave brushTool10Fixture brushLeaveLayerFixture ⟨1, 1⟩ 7).objects.map
        CanvasObject.points) = [[1, 1, 1, 1]] ∧
    consecutiveSpacedB
        (brushTool10Fixture.brushWidth * BRUSH_SPACING_TARGET_SCALE)
        (chunkPairs [1, 1, 1, 1]) = false := by
  constructor
  · norm_num [onMouseLeave, brushTool10Fixture, brushLeaveLayerFixture,
      finalizeDrawingBuffer, offsetCoord, alignCoordForTool, jsRound]
  · norm_num [consecutiveSpacedB, chunkPairs, brushTool10Fixture,
      BRUSH_SPACING_TARGET_SCALE]

/-- The extent result delivered by the Extent Engine worker. -/
structure Extents where
  minX : ℚ
  minY : ℚ
  maxX : ℚ
  maxY : ℚ
deriving DecidableEq, Repr

/-- The bbox-related state of a `CanvasLayer` adapter: the rendered object
collection (`this.objects`, as a list), the two geometry-cache rectangles
`rect` and `bbox`, and the first-render / pending-calculation flags. -/
structure BboxLayer where
  objects : List CanvasObject
  rect : Rect
  bbox : Rect
  isFirstRender : Bool
  isPendingBboxCalculation : Bool
deriving DecidableEq, Repr

/-- Source method `CanvasLayer.getDefaultRect`: the zero rectangle. -/
def getDefaultRect : Rect :=
  { x := 0, y := 0, width := 0, height := 0 }

/-- The externally observable effect of `CanvasLayer.updateBbox`: whether
`onEntityReset` was dispatched upstream, and the visibility applied to the
bbox/interaction-rect scene nodes (`none` when the early pending-return
leaves them untouched). -/
structure UpdateBboxEffect where
  emittedEntityReset : Bool
  nodesVisible : Option Bool
deriving DecidableEq, Repr

/-- Source method `CanvasLayer.updateBbox`: returns early while a bbox computation is
pending; on a zero-width or zero-height bbox it hides the outline nodes
and — only when this is not the first render and the layer still holds
objects — reports the entity as reset upstream; otherwise it shows the
outline nodes (the remaining konva attribute updates carry no observable
state for the claims). -/
def updateBbox (l : BboxLayer) : UpdateBboxEffect :=
  if l.isPendingBboxCalculation then
    { emittedEntityReset := false, nodesVisible := none }
  else if l.bbox.width = 0 ∨ l.bbox.height = 0 then
    { emittedEntityReset :=
        decide (l.isFirstRender = false ∧ 0 < l.objects.length),
      nodesVisible := some false }
  else
    { emittedEntityReset := false, nodesVisible := some true }

/-- Source method `CanvasLayer.calculateBbox` (the debounced callback body): with no
rendered objects both cached rectangles reset to the zero rectangle.
Otherwise the konva client rect (an external scene query, passed in as
`clientRect`) is used for both `rect` and `bbox` unless some object is an
eraser line, an image, or a clipped brush line, in which case the
pixel-extent path runs: `ctxOk` models `getContext('2d')` succeeding and
`extents` the Extent Engine's reply (`none` when every pixel is
transparent); a `none` reply also resets both rectangles to the zero
rectangle.  The debounce window and the worker round-trip are timing
concerns outside the embedding; the callback is applied synchronously. -/
def calculateBbox (l : BboxLayer) (clientRect : Rect) (ctxOk : Bool)
    (extents : Option Extents) : BboxLayer :=
  let pending := { l with isPendingBboxCalculation := true }
  if pending.objects.length = 0 then
    { pending with rect := getDefaultRect, bbox := getDefaultRect,
                   isPendingBboxCalculation := false }
  else
    let needsPixelBbox := pending.objects.any fun o =>
      decide (o.type = "eraser_line" ∨ o.type = "image" ∨
        (o.type = "brush_line" ∧ o.clip ≠ none))
    if needsPixelBbox = false then
      { pending with rect := clientRect, bbox := clientRect,
                     isPendingBboxCalculation := false }
    else if ctxOk = false then
      pending
    else
      match extents with
      | some e =>
          { pending with
              rect := clientRect,
              bbox := { x := clientRect.x + e.minX, y := clientRect.y + e.minY,
                        width := e.maxX - e.minX, height := e.maxY - e.minY },
              isPendingBboxCalculation := false }
      | none =>
          { pending with rect := getDefaultRect, bbox := getDefaultRect,
                         isPendingBboxCalculation := false }

/-- C5: on a recompute (the pending flag is clear), a bbox with zero width
or zero height for a layer that still holds objects and is past its first
render is reported upstream as an entity reset; and on the very first
render pass no reset is ever emitted, whatever the bbox value. -/
theorem zeroBbox_reportsEntityReset (l : BboxLayer) :
    (l.isPendingBboxCalculation = false →
      (l.bbox.width = 0 ∨ l.bbox.height = 0) →
      l.isFirstRender = false → 0 < l.objects.length →
      (updateBbox l).emittedEntityReset = true) ∧
    (l.isFirstRender = true → (updateBbox l).emittedEntityReset = false) := by
  constructor
  · intro hp hz hf ho
    unfold updateBbox
    rw [if_neg (by simp [hp]), if_pos hz]
    simp [hf, ho]
  · intro hf
    unfold updateBbox
    split_ifs with h1 h2 <;> simp [hf]

/-- Fixture: a layer past its first render, not pending, holding one eraser
line, whose bbox has collapsed to the zero rectangle. -/
def zeroBboxLayerFixture : BboxLayer :=
  { objects := [{ id := "eraser_line:1", type := "eraser_line",
                  points := [0, 0, 5, 5], strokeWidth := 10 }],
    rect := ⟨0, 0, 10, 10⟩, bbox := ⟨0, 0, 0, 0⟩,
    isFirstRender := false, isPendingBboxCalculation := false }

/-- Fixture: the same layer on its very first render pass. -/
def firstRenderLayerFixture : BboxLayer :=
  { zeroBboxLayerFixture with isFirstRender := true }

/-- Witness for C5: the collapsed layer emits a reset; the identical layer
on its first render does not. -/
theorem zeroBbox_reportsEntityReset_witness :
    (updateBbox zeroBboxLayerFixture).emittedEntityReset = true ∧
    (updateBbox firstRenderLayerFixture).emittedEntityReset = false :=
  ⟨(zeroBbox_reportsEntityReset zeroBboxLayerFixture).1 rfl (Or.inl rfl) rfl
      (by decide),
   (zeroBbox_reportsEntityReset firstRenderLayerFixture).2 rfl⟩

/-- C8: whenever the object collection is empty at bbox-computation time,
both `rect` and `bbox` come out as the zero rectangle
`{x: 0, y: 0, width: 0, height: 0}`, for every client rect, context
outcome and extent reply. -/
theorem emptyObjects_zeroRectAndBbox (l : BboxLayer) (clientRect : Rect)
    (ctxOk : Bool) (extents : Option Extents) (h : l.objects = []) :
    (calculateBbox l clientRect ctxOk extents).rect = ⟨0, 0, 0, 0⟩ ∧
    (calculateBbox l clientRect ctxOk extents).bbox = ⟨0, 0, 0, 0⟩ := by
  unfold calculateBbox
  simp [h, getDefaultRect]

/-- Fixture: a layer with no rendered objects. -/
def emptyObjectsLayerFixture : BboxLayer :=
  { objects := [], rect := ⟨1, 2, 3, 4⟩, bbox := ⟨5, 6, 7, 8⟩,
    isFirstRender := false, isPendingBboxCalculation := false }

/-- Witness for C8 at an empty layer with nonzero cached rectangles. -/
theorem emptyObjects_zeroRectAndBbox_witness :
    (calculateBbox emptyObjectsLayerFixture ⟨9, 9, 9, 9⟩ true none).rect =
      ⟨0, 0, 0, 0⟩ ∧
    (calculateBbox emptyObjectsLayerFixture ⟨9, 9, 9, 9⟩ true none).bbox =
      ⟨0, 0, 0, 0⟩ :=
  emptyObjects_zeroRectAndBbox emptyObjectsLayerFixture ⟨9, 9, 9, 9⟩ true none rfl

/-- A `LayerEntity` state snapshot as the reconciler compares it.  The
source compares `state`, `state.objects` and `state.position` by JavaScript
object identity (`!==`); identity is modelled by explicit reference tokens
(`ref`, `objectsRef`, `positionRef`), while `opacity` and `isEnabled` are
primitives compared by value. -/
structure LayerEntity where
  ref : ℕ
  objectsRef : ℕ
  objects : List CanvasObject
  positionRef : ℕ
  position : Coordinate
  opacity : ℚ
  isEnabled : Bool
deriving DecidableEq, Repr

/-- The adapter state read by `CanvasLayer.update`: the previously
reconciled snapshot (`this._state`) and the first-render flag
(`this._isFirstRender`). -/
structure AdapterLayer where
  prevState : LayerEntity
  isFirstRender : Bool
deriving DecidableEq, Repr

/-- A scene mutation performed by one of the sub-updates that
`CanvasLayer.update` delegates to. -/
inductive SceneMutation where
  | objectsUpdated
  | positionUpdated
  | opacityUpdated
  | visibilityUpdated
  | interactionUpdated
  | bboxUpdated
deriving DecidableEq, Repr

/-- Source method `CanvasLayer.update`: skips entirely (zero scene mutations) when this
is not the first render and the incoming state is the same reference as the
previous one; otherwise runs the per-field sub-updates whose inputs changed
by reference (objects, position) or by value (opacity, enabled), always
refreshes interaction, on the first render also recomputes the bbox, and
finally stores the new state and clears the first-render flag.  The
scene-graph side effects are returned as the list of sub-updates
performed. -/
def update (l : AdapterLayer) (state : LayerEntity) :
    AdapterLayer × List SceneMutation :=
  if l.isFirstRender = false ∧ state.ref = l.prevState.ref then
    (l, [])
  else
    let muts :=
      (if l.isFirstRender = true ∨ state.objectsRef ≠ l.prevState.objectsRef
        then [SceneMutation.objectsUpdated] else []) ++
      (if l.isFirstRender = true ∨ state.positionRef ≠ l.prevState.positionRef
        then [SceneMutation.positionUpdated] else []) ++
      (if l.isFirstRender = true ∨ state.opacity ≠ l.prevState.opacity
        then [SceneMutation.opacityUpdated] else []) ++
      (if l.isFirstRender = true ∨ state.isEnabled ≠ l.prevState.isEnabled
        then [SceneMutation.visibilityUpdated] else []) ++
      [SceneMutation.interactionUpdated] ++
      (if l.isFirstRender = true then [SceneMutation.bboxUpdated] else [])
    ({ prevState := state, isFirstRender := false }, muts)

/-- C6: reconciliation is idempotent with respect to the state reference —
after any call of `update` with a state, a second call with the same state
reference performs zero scene mutations and leaves the adapter untouched
(the first call has completed the first render, so the second returns
early). -/
theorem update_secondCallSameState_noMutations (l : AdapterLayer)
    (state : LayerEntity) :
    update (update l state).1 state = ((update l state).1, []) := by
  by_cases h : l.isFirstRender = false ∧ state.ref = l.prevState.ref
  · simp [update, h]
  · simp [update, h]

/-- A keyboard event as seen by the handlers: the key string, whether it is
an auto-repeat, and whether it targets a text input element
(`HTMLInputElement` / `HTMLTextAreaElement`). -/
structure KeyEvent where
  key : String
  keyRepeat : Bool
  targetIsTextInput : Bool
deriving DecidableEq, Repr

/-- The interaction state touched by the keyboard handlers: the tool slice
plus the ephemeral space-key, cursor and drag-anchor cells, and the
selected entity's adapter (for the Escape branch, which clears its
buffer). -/
structure InteractionState where
  tool : ToolState
  spaceKey : Bool
  lastCursorPos : Option Coordinate
  lastMouseDownPos : Option Coordinate
  selectedEntity : Option Layer
deriving DecidableEq, Repr

/-- Source handler `onKeyDown`: ignores auto-repeats and events targeting text inputs;
Escape clears the selected entity's buffer and the drag anchor; space
stores the currently selected tool in the tool buffer
(`setToolBuffer(getToolState().selected)`), selects the view tool, raises
the space flag and clears the ephemeral cursor cells. -/
def onKeyDown (e : KeyEvent) (st : InteractionState) : InteractionState :=
  if e.keyRepeat then st
  else if e.targetIsTextInput then st
  else if e.key = "Escape" then
    match st.selectedEntity with
    | some entity =>
        { st with selectedEntity := some (clearBuffer entity),
                  lastMouseDownPos := none }
    | none => st
  else if e.key = " " then
    { st with
        tool := { st.tool with
          selectedBuffer := some st.tool.selected,
          selected := Tool.view },
        spaceKey := true,
        lastCursorPos := none,
        lastMouseDownPos := none }
  else st

/-- Source handler `onKeyUp`: ignores auto-repeats and events targeting text inputs; on
space release selects the buffered tool — falling back to the move tool
when the buffer is empty (`toolBuffer ?? 'move'`) — clears the buffer and
lowers the space flag. -/
def onKeyUp (e : KeyEvent) (st : InteractionState) : InteractionState :=
  if e.keyRepeat then st
  else if e.targetIsTextInput then st
  else if e.key = " " then
    { st with
        tool := { st.tool with
          selected := st.tool.selectedBuffer.getD Tool.move,
          selectedBuffer := none },
        spaceKey := false }
  else st

/-- The `toolChanged` dispatch of the canvasV2 slice: sets the selected
tool, leaving the tool buffer alone. -/
def toolChanged (st : InteractionState) (tool : Tool) : InteractionState :=
  { st with tool := { st.tool with selected := tool } }

/-- A plain space-bar event: not an auto-repeat, not targeting a text
input. -/
def spaceKeyEvent : KeyEvent :=
  { key := " ", keyRepeat := false, targetIsTextInput := false }

/-- C7: pressing space buffers the current tool and selects the view tool;
releasing space restores the buffered tool — even if a different tool was
selected while space was held — or the move tool when the buffer is empty;
auto-repeat events and events targeting text inputs change nothing. -/
theorem spaceBar_roundTrip_restoresTool (st : InteractionState) (t : Tool)
    (e : KeyEvent) :
    (onKeyUp spaceKeyEvent
        (toolChanged (onKeyDown spaceKeyEvent st) t)).tool.selected =
      st.tool.selected ∧
    (onKeyDown spaceKeyEvent st).tool.selected = Tool.view ∧
    (st.tool.selectedBuffer = none →
      (onKeyUp spaceKeyEvent st).tool.selected = Tool.move) ∧
    (e.keyRepeat = true → onKeyDown e st = st ∧ onKeyUp e st = st) ∧
    (e.targetIsTextInput = true → onKeyDown e st = st ∧ onKeyUp e st = st) := by
  refine ⟨?_, ?_, ?_, ?_, ?_⟩
  · simp [onKeyDown, onKeyUp, toolChanged, spaceKeyEvent]
  · simp [onKeyDown, spaceKeyEvent]
  · intro hbuf
    simp [onKeyUp, spaceKeyEvent, hbuf]
  · intro hrep
    constructor <;> simp [onKeyDown, onKeyUp, hrep]
  · intro htext
    by_cases hrep : e.keyRepeat = true
    · constructor <;> simp [onKeyDown, onKeyUp, hrep]
    · constructor <;> simp [onKeyDown, onKeyUp, hrep, htext]

/-- Fixture: an interaction state with the brush tool selected and an
empty tool buffer. -/
def keyStateFixture : InteractionState :=
  { tool := { selected := Tool.brush, selectedBuffer := none,
              invertScroll := false, fill := ⟨0, 0, 0, 255⟩,
              brushWidth := 50, eraserWidth := 50 },
    spaceKey := false, lastCursorPos := some ⟨3, 4⟩,
    lastMouseDownPos := none, selectedEntity := none }

/-- Fixture: an auto-repeated space-bar event. -/
def repeatSpaceEvent : KeyEvent :=
  { key := " ", keyRepeat := true, targetIsTextInput := false }

/-- Witness for C7: pressing space from the brush tool, selecting the view
tool while space is held, then releasing space ends on the brush tool; a
release with an empty buffer falls back to the move tool; an auto-repeated
space press changes nothing. -/
theorem spaceBar_roundTrip_restoresTool_witness :
    (onKeyUp spaceKeyEvent
        (toolChanged (onKeyDown spaceKeyEvent keyStateFixture)
          Tool.view)).tool.selected = Tool.brush ∧
    (onKeyUp spaceKeyEvent keyStateFixture).tool.selected = Tool.move ∧
    onKeyDown repeatSpaceEvent keyStateFixture = keyStateFixture :=
  ⟨(spaceBar_roundTrip_restoresTool keyStateFixture Tool.view repeatSpaceEvent).1,
   (spaceBar_roundTrip_restoresTool keyStateFixture Tool.view
      repeatSpaceEvent).2.2.1 rfl,
   ((spaceBar_roundTrip_restoresTool keyStateFixture Tool.view
      repeatSpaceEvent).2.2.2.1 rfl).1⟩

/-- The stage as sampled by the color picker: the pointer position (absent
when the cursor is outside the stage) and the RGBA bytes of the 1×1
`getImageData` sample at that position (`none` models a failed
`getContext`; a list shorter than four bytes models missing channel
data). -/
structure StageSample where
  pointerPosition : Option Coordinate
  imageData : Option (List ℕ)
deriving DecidableEq, Repr

/-- Source function `getColorUnderCursor`: an absent pointer position, a failed context, or
missing channel data each yield `none` (no exception is modelled because
none is thrown); otherwise the four leading RGBA bytes form the color. -/
def getColorUnderCursor (stage : StageSample) : Option RgbaColor :=
  match stage.pointerPosition with
  | none => none
  | some _ =>
      match stage.imageData with
      | none => none
      | some data =>
          match data with
          | r :: g :: b :: a :: _ => some ⟨r, g, b, a⟩
          | _ => none

/-- The color-picker state touched by the eyeDropper branches: the
published color-under-cursor cell and the active fill color. -/
structure ColorPickState where
  colorUnderCursor : Option RgbaColor
  fill : RgbaColor
deriving DecidableEq, Repr

/-- The eyeDropper branch of the `mousedown` handler: samples the pixel
under the cursor, publishes the sample (also when absent), and — only when
the sample is present — makes it the active fill. -/
def onMouseDownEyeDropper (stage : StageSample) (st : ColorPickState) :
    ColorPickState :=
  let color := getColorUnderCursor stage
  let published := { st with colorUnderCursor := color }
  match color with
  | some c => { published with fill := c }
  | none => published

/-- The eyeDropper branch of the `mousemove` handler: publishes the sample
without touching the fill. -/
def onMouseMoveEyeDropper (stage : StageSample) (st : ColorPickState) :
    ColorPickState :=
  { st with colorUnderCursor := getColorUnderCursor stage }

/-- C9: press and move both publish the single-pixel sample as the color
under cursor; the fill changes on press only, and only to a present
sample — an absent pointer position or absent pixel data yields an absent
sample and leaves the fill unchanged (the embedding is total: no code path
throws). -/
theorem eyeDropper_publishesSample_setsFillOnPress (stage : StageSample)
    (st : ColorPickState) :
    (onMouseDownEyeDropper stage st).colorUnderCursor =
      getColorUnderCursor stage ∧
    (onMouseDownEyeDropper stage st).fill =
      (getColorUnderCursor stage).getD st.fill ∧
    (onMouseMoveEyeDropper stage st).colorUnderCursor =
      getColorUnderCursor stage ∧
    (onMouseMoveEyeDropper stage st).fill = st.fill ∧
    (stage.pointerPosition = none → getColorUnderCursor stage = none) ∧
    (stage.imageData = none → getColorUnderCursor stage = none) := by
  refine ⟨?_, ?_, rfl, rfl, ?_, ?_⟩
  · unfold onMouseDownEyeDropper
    cases getColorUnderCursor stage <;> rfl
  · unfold onMouseDownEyeDropper
    cases getColorUnderCursor stage <;> rfl
  · intro hp
    unfold getColorUnderCursor
    rw [hp]
  · intro hd
    unfold getColorUnderCursor
    rw [hd]
    cases stage.pointerPosition <;> rfl

/-- Fixture: a stage sample with the pointer outside the stage. -/
def emptyStageFixture : StageSample :=
  { pointerPosition := none, imageData := none }

/-- Fixture: a color-pick state with a red fill. -/
def pickStateFixture : ColorPickState :=
  { colorUnderCursor := none, fill := ⟨255, 0, 0, 255⟩ }

/-- Witness for C9: with the pointer outside the stage the sample is
absent and a press leaves the fill unchanged. -/
theorem eyeDropper_publishesSample_setsFillOnPress_witness :
    getColorUnderCursor emptyStageFixture = none ∧
    (onMouseDownEyeDropper emptyStageFixture pickStateFixture).fill =
      pickStateFixture.fill :=
  ⟨(eyeDropper_publishesSample_setsFillOnPress emptyStageFixture
      pickStateFixture).2.2.2.2.1 rfl,
   (eyeDropper_publishesSample_setsFillOnPress emptyStageFixture
      pickStateFixture).2.1⟩
